import Mathlib

/-!
Shallow embedding of the live-session core of `src/index.tsx` (a React client
for a bidirectional audio streaming session): session token lifecycle,
capture-tick processing, playback scheduling, transcript aggregation and
error classification, together with proofs checking the specification's
claims against this embedding.

Conventions:
* JS numbers carrying audio samples are modelled as `ℝ`; timestamps and
  durations handled only by `max`/`+` are modelled as `ℚ`.
* React `useState` observables and `useRef` cells are fields of `LiveState`.
* Each asynchronous callback of the source becomes a state-transition
  function taking the `sessionId` it was registered under; the token guard
  `if (currentSessionIdRef.current !== sessionId) return;` is translated
  literally.
-/

/-- Constant `SAMPLE_RATE_INPUT` (line 10 of the source). -/
def SAMPLE_RATE_INPUT : ℕ := 16000

/-- Constant `SAMPLE_RATE_OUTPUT` (line 11 of the source). -/
def SAMPLE_RATE_OUTPUT : ℕ := 24000

/-- Constant `BUFFER_SIZE` (line 9 of the source). -/
def BUFFER_SIZE : ℕ := 2048

/-- Speaker role of a transcript message (`role: 'user' | 'model'`). -/
inductive Role where
  | user
  | model
deriving Repr, DecidableEq

/-- The `Message` record of the source (lines 84-89): one transcript entry. -/
structure Message where
  id : ℕ
  role : Role
  text : String
  isComplete : Bool
deriving Repr, DecidableEq

/-- Inbound transport message shape consumed by `onmessage` /
`handleTranscription` (`serverContent` fields; `audioData` abbreviates
`serverContent.modelTurn.parts[0].inlineData.data`, carried as the byte
length of the wire-encoded chunk, which is all the scheduler observes). -/
structure ServerMessage where
  inputTranscription : Option String
  outputTranscription : Option String
  turnComplete : Bool
  interrupted : Bool
  audioData : Option ℕ
deriving Repr, DecidableEq

/-- Whole observable application state of the session core: the React
observables (`isConnected`, `isSpeaking`, `isBusy`, `volume`, `messages`,
`error`) and the refs (`currentSessionIdRef`, `activeSessionRef` as a
presence flag, `nextStartTime`, `audioSources` as the list of ids of active
playback sources, `currentInputTrans`, `currentOutputTrans`). -/
structure LiveState where
  currentSessionId : ℕ
  isConnected : Bool
  isSpeaking : Bool
  isBusy : Bool
  volume : ℝ
  messages : List Message
  error : Option String
  activeSession : Bool
  nextStartTime : ℚ
  audioSources : List ℕ
  inTrans : String
  outTrans : String

/-- Initial state: all refs at their `useRef` initial values, all
observables at their `useState` initial values. -/
def initState : LiveState :=
  { currentSessionId := 0
    isConnected := false
    isSpeaking := false
    isBusy := false
    volume := 0
    messages := []
    error := none
    activeSession := false
    nextStartTime := 0
    audioSources := []
    inTrans := ""
    outTrans := "" }

/-- Model of JavaScript `toLowerCase()` on a character: ASCII letters are
lowered, everything else (in particular the Thai and diacritic characters
appearing in this program's phrase table) is left unchanged. -/
def charLower (c : Char) : Char :=
  if c.toNat ≥ 65 && c.toNat ≤ 90 then Char.ofNat (c.toNat + 32) else c

/-- Model of JavaScript `String.prototype.toLowerCase()`. -/
def strLower (s : String) : String :=
  ⟨s.data.map charLower⟩

/-- Model of JavaScript `String.prototype.trim()`: strip whitespace from
both ends. -/
def strTrim (s : String) : String :=
  ⟨((s.data.dropWhile Char.isWhitespace).reverse.dropWhile
      Char.isWhitespace).reverse⟩

/-- List-level test that `pat` occurs at the head of `hay`. -/
def listStartsWith : List Char → List Char → Bool
  | _, [] => true
  | [], _ :: _ => false
  | a :: as, b :: bs => a = b && listStartsWith as bs

/-- List-level substring occurrence test. -/
def listHasSub : List Char → List Char → Bool
  | [], pat => listStartsWith [] pat
  | h :: t, pat => listStartsWith (h :: t) pat || listHasSub t pat

/-- Model of JavaScript `hay.includes(pat)`: substring containment. -/
def strContains (hay pat : String) : Bool :=
  listHasSub hay.data pat.data

/-- The local stop-command detector of `handleTranscription` (line 946):
`lowerText.includes("ติฏฺฐตุ") || lowerText.includes("tiṭṭhatu") ||
lowerText.includes("titthatu")` applied to the lower-cased user-role
accumulator. -/
def stopPhraseHit (acc : String) : Bool :=
  let lowerText := strLower acc
  strContains lowerText "ติฏฺฐตุ" || strContains lowerText "tiṭṭhatu" ||
    strContains lowerText "titthatu"

/-- The `updateMessageState` function of the source (lines 972-984): extend
the trailing incomplete message of the same role, else append a new entry
when the text is non-blank. `now` stands for `Date.now()` used as the id of
a freshly created entry. -/
def updateMessageState (now : ℕ) (role : Role) (text : String)
    (isComplete : Bool) (prev : List Message) : List Message :=
  match prev.getLast? with
  | some lastMsg =>
    if lastMsg.role = role && !lastMsg.isComplete then
      prev.dropLast ++ [{ lastMsg with text := text, isComplete := isComplete }]
    else if 0 < (strTrim text).length then
      prev ++ [{ id := now, role := role, text := text, isComplete := isComplete }]
    else prev
  | none =>
    if 0 < (strTrim text).length then
      prev ++ [{ id := now, role := role, text := text, isComplete := isComplete }]
    else prev

/-- The `handleTranscription` function of the source (lines 934-970):
per-role accumulation of transcript fragments, the client-side
stop-command detection on the user accumulator (which stops and clears the
active playback sources and clears the speaking observable, lines
946-952), and turn-complete finalization of both accumulators. -/
def handleTranscription (now : ℕ) (msg : ServerMessage) (st : LiveState) :
    LiveState :=
  let st :=
    match msg.inputTranscription with
    | some t =>
      let acc := st.inTrans ++ t
      let st := { st with inTrans := acc,
                          messages := updateMessageState now .user acc false st.messages }
      if stopPhraseHit acc then
        { st with audioSources := [], isSpeaking := false }
      else st
    | none => st
  let st :=
    match msg.outputTranscription with
    | some t =>
      let acc := st.outTrans ++ t
      { st with outTrans := acc,
                messages := updateMessageState now .model acc false st.messages }
    | none => st
  if msg.turnComplete then
    let st :=
      if st.inTrans ≠ "" then
        { st with messages := updateMessageState now .user st.inTrans true st.messages,
                  inTrans := "" }
      else st
    if st.outTrans ≠ "" then
      { st with messages := updateMessageState now .model st.outTrans true st.messages,
                outTrans := "" }
    else st
  else st

/-- Volume meter of `scriptProcessor.onaudioprocess` (lines 762-766):
root-mean-square of the tick's samples, scaled by the fixed gain 10 and
clamped to 1: `Math.min(rms * 10, 1)`. -/
noncomputable def volumeLevel (input : List ℝ) : ℝ :=
  let sum := (input.map fun x => x * x).sum
  let rms := Real.sqrt (sum / (input.length : ℝ))
  min (rms * 10) 1

/-- Quantization `int16[i] = inputData[i] * 32768` performed by the capture
tick (lines 769-772): JavaScript `Int16Array` assignment truncates toward
zero and wraps to the signed 16-bit range. -/
noncomputable def toInt16 (x : ℝ) : ℤ :=
  let t : ℤ := if 0 ≤ x then ⌊x⌋ else ⌈x⌉
  (t + 2 ^ 15) % 2 ^ 16 - 2 ^ 15

/-- The `scriptProcessor.onaudioprocess` callback (lines 753-792). Returns
the successor state together with the frame handed to the asynchronous
send path (`none` when no hand-off happened this tick). Guard order is
that of the source: stale-token check first, then the echo guard
`if (audioSources.current.size > 0) return;`, and only then the volume
meter, quantization, and the hand-off (gated by a non-empty payload and
`navigator.onLine`). -/
noncomputable def onaudioprocess (sessionId : ℕ) (online : Bool)
    (input : List ℝ) (st : LiveState) : LiveState × Option (List ℤ) :=
  if st.currentSessionId ≠ sessionId then (st, none)
  else if 0 < st.audioSources.length then (st, none)
  else
    let st := { st with volume := volumeLevel input }
    let frame := input.map fun x => toInt16 (x * 32768)
    if input.length ≠ 0 && online then (st, some frame) else (st, none)

/-- The resumption of the capture tick inside `sessionPromise.then`
(lines 777-790): re-checks the token immediately before transmission.
Returns the frame actually transmitted (`none` when dropped as stale);
the application state is never mutated by the send path. -/
def sendRealtime (sessionId : ℕ) (dat : List ℤ) (st : LiveState) :
    LiveState × Option (List ℤ) :=
  if st.currentSessionId = sessionId then (st, some dat) else (st, none)

/-- The `onopen` callback (lines 741-747): on a matching token, marks the
session connected and resets the transcript list; the remaining body only
wires the capture graph (no observable state). -/
def onopen (sessionId : ℕ) (st : LiveState) : LiveState :=
  if st.currentSessionId ≠ sessionId then st
  else { st with isConnected := true, messages := [] }

/-- Synchronous head of `playAudioChunk` (line 988): `setIsSpeaking(true)`
runs before the awaited decode. -/
def playAudioChunkStart (st : LiveState) : LiveState :=
  { st with isSpeaking := true }

/-- Duration of a decoded chunk: `decodeAudioData` (lines 43-60) produces
`frameCount = bytes/2` mono samples at `SAMPLE_RATE_OUTPUT`, so
`buffer.duration = frameCount / 24000` seconds. -/
def durationOfChunk (chunkLen : ℕ) : ℚ :=
  ((chunkLen / 2 : ℕ) : ℚ) / (SAMPLE_RATE_OUTPUT : ℚ)

/-- Continuation of `playAudioChunk` after the awaited decode (lines
992-1001): `start = Math.max(currentTime, nextStartTime)`, schedule the
source at `start`, advance the cursor to `start + duration`, and add the
source to the active set. The source contains no token check here. -/
def playAudioChunkResume (srcId : ℕ) (currentTime : ℚ) (chunkLen : ℕ)
    (st : LiveState) : LiveState :=
  let start := max currentTime st.nextStartTime
  { st with nextStartTime := start + durationOfChunk chunkLen,
            audioSources := st.audioSources ++ [srcId] }

/-- The `source.onended` completion hook (lines 1003-1008): removes the
source from the active set; when the set becomes empty the source code
schedules a delayed `setIsSpeaking(false)` (modelled as the separate
`evSpeakingTimeout` event, which carries no token check). -/
def sourceEnded (srcId : ℕ) (st : LiveState) : LiveState :=
  { st with audioSources := st.audioSources.filter (· ≠ srcId) }

/-- The `onmessage` callback (lines 800-817): token guard, transcript
handling, playback spawn for an audio part, and the `interrupted` branch
(stop and clear all sources, zero the cursor, clear the model accumulator,
clear speaking). -/
def onmessage (sessionId now : ℕ) (msg : ServerMessage) (st : LiveState) :
    LiveState :=
  if st.currentSessionId ≠ sessionId then st
  else
    let st := handleTranscription now msg st
    let st := if msg.audioData.isSome then playAudioChunkStart st else st
    if msg.interrupted then
      { st with audioSources := [], nextStartTime := 0, outTrans := "",
                isSpeaking := false }
    else st

/-- The `onclose` callback (lines 818-824). -/
def onclose (sessionId : ℕ) (st : LiveState) : LiveState :=
  if st.currentSessionId ≠ sessionId then st
  else { st with isConnected := false, isSpeaking := false,
                 activeSession := false }

/-- Raw error signal delivered to `onerror`, shaped after the extraction
branches of lines 829-852: an `Error` instance, an object with a `message`
property, another object (with the outcome of `JSON.stringify`, `none`
standing for a throw, alongside its `String(e)` form), or a primitive. -/
inductive ErrSignal where
  | jsError (message : String)
  | objWithMessage (message : String)
  | objOther (json : Option String) (str : String)
  | primValue (str : String)
deriving Repr, DecidableEq

/-- Error text extraction of `onerror` (lines 829-852): prefer `message`,
else a non-trivial `JSON.stringify`, else the generic string form. -/
def extractErrMsg : ErrSignal → String
  | .jsError m => m
  | .objWithMessage m => m
  | .objOther (some json) str =>
    if json ≠ "" && json ≠ "\x7b\x7d" then json else str
  | .objOther none str => str
  | .primValue s => s

/-- Busy notice text set by the 503 branch of `onerror` (line 859). -/
def busyNotice : String := "ระบบกำลังทำงานหนัก กรุณาลองใหม่ในอีกสักครู่ (Server Busy)"

/-- Generic failure notice text set by the fall-through branch of
`onerror` (line 884). -/
def fatalNotice : String := "เกิดข้อผิดพลาดในการเชื่อมต่อ (Connection Error)"

/-- The busy test of `onerror` (line 857): case-insensitive substring
match against the 503 patterns. -/
def busyPatternHit (lowerErr : String) : Bool :=
  strContains lowerErr "service is currently unavailable" ||
    strContains lowerErr "503"

/-- The suppression test of `onerror` (lines 867-873): case-insensitive
substring match against the network-noise patterns, in source order. -/
def suppressedPatternHit (lowerErr : String) : Bool :=
  strContains lowerErr "network error" ||
    strContains lowerErr "networkerror" ||
    strContains lowerErr "closed" ||
    strContains lowerErr "aborted" ||
    strContains lowerErr "entity was not found" ||
    strContains lowerErr "connection failed" ||
    strContains lowerErr "undefined"

/-- The `onerror` callback (lines 825-888): token guard, error text
extraction, then the case-insensitive substring classification chain.
The busy branch sets a retryable notice; the suppression branch resets
state without touching the error observable; the fall-through branch sets
the generic notice. All three clear connected/speaking and drop the
session handle. -/
def onerror (sessionId : ℕ) (e : ErrSignal) (st : LiveState) : LiveState :=
  if st.currentSessionId ≠ sessionId then st
  else
    let errMsg := extractErrMsg e
    let lowerErr := strLower errMsg
    if busyPatternHit lowerErr then
      { st with error := some busyNotice, isConnected := false,
                isSpeaking := false, activeSession := false }
    else if suppressedPatternHit lowerErr then
      { st with isConnected := false, isSpeaking := false,
                activeSession := false }
    else
      { st with error := some fatalNotice, isConnected := false,
                isSpeaking := false, activeSession := false }

/-- The resumption of `connect` after `getUserMedia` (lines 726-731): when
the token was superseded while the device prompt was pending, the acquired
tracks are released and only the busy flag is touched; on a matching token
execution continues with no observable change at this point. -/
def mediaResume (sessionId : ℕ) (st : LiveState) : LiveState :=
  if st.currentSessionId ≠ sessionId then { st with isBusy := false } else st

/-- The resumption of `connect` after `await sessionPromise` (lines
905-912): a stale token closes the fresh session handle without recording
it; a matching token records it in `activeSessionRef`. -/
def sessionResume (sessionId : ℕ) (st : LiveState) : LiveState :=
  if st.currentSessionId ≠ sessionId then st
  else { st with activeSession := true }

/-- Synchronous head of `connect` (lines 687-702): busy guard, online
check, token mint from the wall clock (`const sessionId = Date.now()`),
and `setError(null)`. The clock reading is an input of the model. -/
def connectMint (clock : ℕ) (online : Bool) (st : LiveState) : LiveState :=
  if st.isBusy then st
  else if !online then { st with error := some "No internet connection." }
  else { st with isBusy := true, currentSessionId := clock, error := none }

/-- The `finally` clause of `connect` (lines 927-931): drops the busy flag
when the token still matches. -/
def connectFinally (sessionId : ℕ) (st : LiveState) : LiveState :=
  if st.currentSessionId = sessionId then { st with isBusy := false } else st

/-- State effects of `cleanupAudioAndSession` (lines 1014-1055): the
session handle is dropped and every active playback source is stopped and
cleared; device and context teardown carries no observable state. The
scheduler cursor is deliberately not touched by cleanup. -/
def cleanupAudioAndSession (st : LiveState) : LiveState :=
  { st with activeSession := false, audioSources := [] }

/-- The `disconnect` operation (lines 1057-1070): busy guard, immediate
token invalidation to `0`, cleanup, then observable reset. The busy flag
ends where it started (set on entry, dropped on exit). -/
def disconnect (st : LiveState) : LiveState :=
  if st.isBusy then st
  else
    let st := { st with currentSessionId := 0 }
    let st := cleanupAudioAndSession st
    { st with isConnected := false, isSpeaking := false, volume := 0,
              isBusy := false }

/-- Events of the session core: every asynchronous callback or resumption
point of the source, plus the user-initiated lifecycle operations. The
token-carrying events hold the `sessionId` captured at registration. -/
inductive SessionEvent where
  | evOnopen (sessionId : ℕ)
  | evOnmessage (sessionId now : ℕ) (msg : ServerMessage)
  | evOnclose (sessionId : ℕ)
  | evOnerror (sessionId : ℕ) (e : ErrSignal)
  | evAudioTick (sessionId : ℕ) (online : Bool) (input : List ℝ)
  | evSendResume (sessionId : ℕ) (dat : List ℤ)
  | evMediaResume (sessionId : ℕ)
  | evSessionResume (sessionId : ℕ)
  | evDecodeResume (srcId : ℕ) (currentTime : ℚ) (chunkLen : ℕ)
  | evSourceEnded (srcId : ℕ)
  | evSpeakingTimeout
  | evConnectMint (clock : ℕ) (online : Bool)
  | evConnectFinally (sessionId : ℕ)
  | evDisconnect
  | evCleanup

/-- One dispatch step of the event system: each event runs its handler. -/
noncomputable def step : SessionEvent → LiveState → LiveState
  | .evOnopen sid => onopen sid
  | .evOnmessage sid now msg => onmessage sid now msg
  | .evOnclose sid => onclose sid
  | .evOnerror sid e => onerror sid e
  | .evAudioTick sid online input => fun st => (onaudioprocess sid online input st).1
  | .evSendResume sid dat => fun st => (sendRealtime sid dat st).1
  | .evMediaResume sid => mediaResume sid
  | .evSessionResume sid => sessionResume sid
  | .evDecodeResume srcId ct len => playAudioChunkResume srcId ct len
  | .evSourceEnded srcId => sourceEnded srcId
  | .evSpeakingTimeout => fun st => { st with isSpeaking := false }
  | .evConnectMint clock online => connectMint clock online
  | .evConnectFinally sid => connectFinally sid
  | .evDisconnect => disconnect
  | .evCleanup => cleanupAudioAndSession

/-- Token-guarded callbacks of the session: the four transport callbacks,
the capture tick, and the three guarded resumptions (pre-send,
post-device-acquisition, post-session-promise). -/
def guardedCallback : SessionEvent → Bool
  | .evOnopen _ => true
  | .evOnmessage _ _ _ => true
  | .evOnclose _ => true
  | .evOnerror _ _ => true
  | .evAudioTick _ _ _ => true
  | .evSendResume _ _ => true
  | .evMediaResume _ => true
  | .evSessionResume _ => true
  | _ => false

/-- Token a guarded callback was registered under (`0` for the rest). -/
def eventToken : SessionEvent → ℕ
  | .evOnopen sid => sid
  | .evOnmessage sid _ _ => sid
  | .evOnclose sid => sid
  | .evOnerror sid _ => sid
  | .evAudioTick sid _ _ => sid
  | .evSendResume sid _ => sid
  | .evMediaResume sid => sid
  | .evSessionResume sid => sid
  | _ => 0

/-- Observable projection of the state named by the specification:
connection, speaking, volume, transcript, error notice, session handle and
audio-scheduling state (cursor and active sources). -/
structure Observables where
  isConnected : Bool
  isSpeaking : Bool
  volume : ℝ
  messages : List Message
  error : Option String
  activeSession : Bool
  nextStartTime : ℚ
  audioSources : List ℕ

/-- Read the observables out of a state. -/
def observablesOf (st : LiveState) : Observables :=
  { isConnected := st.isConnected
    isSpeaking := st.isSpeaking
    volume := st.volume
    messages := st.messages
    error := st.error
    activeSession := st.activeSession
    nextStartTime := st.nextStartTime
    audioSources := st.audioSources }

/-- Events whose handler carries the transport's explicit interruption
signal (`message.serverContent.interrupted`). -/
def interruptSignal : SessionEvent → Bool
  | .evOnmessage _ _ msg => msg.interrupted
  | _ => false

/-- Transcript handling never moves the scheduler cursor. -/
theorem handleTranscription_cursor (now : ℕ) (msg : ServerMessage)
    (st : LiveState) :
    (handleTranscription now msg st).nextStartTime = st.nextStartTime := by
  unfold handleTranscription
  cases msg.inputTranscription <;> cases msg.outputTranscription <;>
    dsimp only <;> split_ifs <;> rfl

/-- Decoded chunk durations are never negative. -/
theorem durationOfChunk_nonneg (len : ℕ) : 0 ≤ durationOfChunk len := by
  unfold durationOfChunk SAMPLE_RATE_OUTPUT
  positivity

/-- C1: every asynchronous callback of the session that carries the token
guard — `onopen`, `onmessage`, `onclose`, `onerror`, the capture-tick
audio-process event, and the resumptions after the session promise and
after device acquisition — leaves every observable named by the
specification (connection, speaking, volume, messages, error, session
handle, audio-scheduling state) unchanged whenever the token it was
registered under is no longer the active one. -/
theorem stale_guarded_callback_is_noop (ev : SessionEvent) (st : LiveState)
    (hg : guardedCallback ev = true)
    (ht : eventToken ev ≠ st.currentSessionId) :
    observablesOf (step ev st) = observablesOf st := by
  cases ev with
  | evOnopen sid =>
    have h : st.currentSessionId ≠ sid := fun heq => ht heq.symm
    simp [step, onopen, h]
  | evOnmessage sid now msg =>
    have h : st.currentSessionId ≠ sid := fun heq => ht heq.symm
    simp [step, onmessage, h]
  | evOnclose sid =>
    have h : st.currentSessionId ≠ sid := fun heq => ht heq.symm
    simp [step, onclose, h]
  | evOnerror sid e =>
    have h : st.currentSessionId ≠ sid := fun heq => ht heq.symm
    simp [step, onerror, h]
  | evAudioTick sid online input =>
    have h : st.currentSessionId ≠ sid := fun heq => ht heq.symm
    simp [step, onaudioprocess, h]
  | evSendResume sid dat =>
    simp only [step, sendRealtime]
    split <;> rfl
  | evMediaResume sid =>
    have h : st.currentSessionId ≠ sid := fun heq => ht heq.symm
    simp [step, mediaResume, h, observablesOf]
  | evSessionResume sid =>
    have h : st.currentSessionId ≠ sid := fun heq => ht heq.symm
    simp [step, sessionResume, h]
  | evDecodeResume srcId ct len => simp [guardedCallback] at hg
  | evSourceEnded srcId => simp [guardedCallback] at hg
  | evSpeakingTimeout => simp [guardedCallback] at hg
  | evConnectMint clock online => simp [guardedCallback] at hg
  | evConnectFinally sid => simp [guardedCallback] at hg
  | evDisconnect => simp [guardedCallback] at hg
  | evCleanup => simp [guardedCallback] at hg

/-- Witness for C1: a concrete stale `onclose` delivered under token 5
while the active token is 0 changes no observable. -/
theorem stale_guarded_callback_is_noop_witness :
    guardedCallback (.evOnclose 5) = true ∧
    eventToken (.evOnclose 5) ≠ initState.currentSessionId ∧
    observablesOf (step (.evOnclose 5) initState) = observablesOf initState :=
  ⟨by decide, by decide,
    stale_guarded_callback_is_noop (.evOnclose 5) initState (by decide)
      (by decide)⟩

/-- State with an open session under token 5 and one active playback
source: the remote party is audibly speaking. -/
def echoSt : LiveState :=
  { initState with currentSessionId := 5, audioSources := [3] }

/-- Counterexample to C2: a capture tick under the active token while the
active-PlaybackSource set is non-empty leaves the state — and in
particular the volume observable — entirely unchanged, even though the
tick's samples would measure to loudness 1; the echo guard returns before
the volume meter runs. The claim asserts such a tick still updates the
volume observable. -/
theorem echo_tick_counterexample :
    (onaudioprocess 5 true [(1 : ℝ)] echoSt).1 = echoSt ∧
    (onaudioprocess 5 true [(1 : ℝ)] echoSt).2 = none ∧
    echoSt.volume = 0 ∧ volumeLevel [(1 : ℝ)] = 1 := by
  refine ⟨by simp [onaudioprocess, echoSt, initState], by simp [onaudioprocess, echoSt, initState], rfl, ?_⟩
  simp only [volumeLevel, List.map_cons, List.map_nil, List.sum_cons,
    List.sum_nil, List.length_cons, List.length_nil]
  norm_num [Real.sqrt_one]

/-- C2 (amended): a capture tick occurring while the active-PlaybackSource
set is non-empty is a complete no-op — the echo guard returns before the
volume meter, so the tick neither updates the volume observable nor hands
a frame to the transport. -/
theorem echo_tick_amended (sessionId : ℕ) (online : Bool) (input : List ℝ)
    (st : LiveState) (hmatch : st.currentSessionId = sessionId)
    (hsrc : st.audioSources ≠ []) :
    onaudioprocess sessionId online input st = (st, none) := by
  have hlen : 0 < st.audioSources.length := List.length_pos.mpr hsrc
  simp [onaudioprocess, hmatch, hlen]

/-- Witness for the amended C2 at a concrete state and tick. -/
theorem echo_tick_amended_witness :
    echoSt.currentSessionId = 5 ∧ echoSt.audioSources ≠ [] ∧
    onaudioprocess 5 true [] echoSt = (echoSt, none) :=
  ⟨by decide, by decide, echo_tick_amended 5 true [] echoSt rfl (by decide)⟩

/-- The four-step model-role fragment run of the claim: fragments `"na"`,
`"namo"`, `"namo buddhaya"` followed by a turn-complete signal, processed
from the initial state with `Date.now()` readings 1, 2, 3, 4. -/
def fragmentRunFinal : LiveState :=
  handleTranscription 4 ⟨none, none, true, false, none⟩
    (handleTranscription 3 ⟨none, some "namo buddhaya", false, false, none⟩
      (handleTranscription 2 ⟨none, some "namo", false, false, none⟩
        (handleTranscription 1 ⟨none, some "na", false, false, none⟩
          initState)))

/-- Counterexample to C3: the handler appends each incoming fragment to the
role accumulator (`currentOutputTrans.current += outputTx.text`), so the
run produces a single message whose text is the concatenation of the three
fragments, not `"namo buddhaya"`. -/
theorem fragment_run_counterexample :
    fragmentRunFinal.messages.length = 1 ∧
    fragmentRunFinal.messages.map Message.text ≠ ["namo buddhaya"] := by
  constructor
  · decide
  · decide

/-- C3 (amended): the run of fragments `"na"`, `"namo"`, `"namo buddhaya"`
for role=model followed by turn-complete produces exactly one model
message, finalized with `isComplete = true`, whose text is the
concatenation `"nanamonamo buddhaya"` of the fragments; no intermediate
fragment creates an additional entry. -/
theorem fragment_run_amended :
    fragmentRunFinal.messages =
      [{ id := 1, role := .model, text := "nanamonamo buddhaya",
         isComplete := true }] := by
  decide

/-- State mid-conversation under token 5: the scheduler cursor is at 5
seconds, the model-role accumulator holds `"x"`, two playback sources are
active and the remote party is speaking. -/
def stopPhraseState : LiveState :=
  { initState with currentSessionId := 5, nextStartTime := 5,
                   outTrans := "x", audioSources := [1, 2],
                   isSpeaking := true }

/-- Counterexample to C4: a user-role fragment containing the stop phrase
`"titthatu"` does trigger the local stop path (the active sources are
stopped and removed and the speaking observable is cleared), but the
scheduler cursor stays at 5 instead of being reset to zero and the
model-role accumulator keeps its partial text instead of being cleared —
unlike the server-driven `interrupted` branch, the local stop path touches
neither. -/
theorem stop_phrase_counterexample :
    stopPhraseHit (stopPhraseState.inTrans ++ "titthatu") = true ∧
    (handleTranscription 9 ⟨some "titthatu", none, false, false, none⟩
        stopPhraseState).audioSources = [] ∧
    (handleTranscription 9 ⟨some "titthatu", none, false, false, none⟩
        stopPhraseState).isSpeaking = false ∧
    (handleTranscription 9 ⟨some "titthatu", none, false, false, none⟩
        stopPhraseState).nextStartTime = 5 ∧
    (handleTranscription 9 ⟨some "titthatu", none, false, false, none⟩
        stopPhraseState).outTrans = "x" := by
  refine ⟨by decide, by decide, by decide, by decide, by decide⟩

/-- C4 (amended): whenever a user-role fragment makes the growing user
accumulator contain a configured stop phrase, the handler immediately
(within the same fragment update, before any turn-complete or server
interruption signal) stops and removes every active PlaybackSource and
clears the speaking observable synchronously; the SchedulerCursor and the
partially-accumulated model-role accumulator are left unchanged by this
local path. -/
theorem stop_phrase_amended (st : LiveState) (t : String) (now : ℕ)
    (hstop : stopPhraseHit (st.inTrans ++ t) = true) :
    (handleTranscription now ⟨some t, none, false, false, none⟩
        st).audioSources = [] ∧
    (handleTranscription now ⟨some t, none, false, false, none⟩
        st).isSpeaking = false ∧
    (handleTranscription now ⟨some t, none, false, false, none⟩
        st).nextStartTime = st.nextStartTime ∧
    (handleTranscription now ⟨some t, none, false, false, none⟩
        st).outTrans = st.outTrans := by
  simp [handleTranscription, hstop]

/-- Witness for the amended C4 at a concrete state and fragment. -/
theorem stop_phrase_amended_witness :
    stopPhraseHit (stopPhraseState.inTrans ++ "titthatu") = true ∧
    (handleTranscription 9 ⟨some "titthatu", none, false, false, none⟩
        stopPhraseState).isSpeaking = false :=
  ⟨by decide,
    (stop_phrase_amended stopPhraseState "titthatu" 9 (by decide)).2.1⟩

/-- A connect attempt at wall-clock reading 5 from the idle state: the
synchronous head of `connect` mints token 5. -/
def mintedState : LiveState := connectMint 5 true initState

/-- The same session after `connect`'s `finally` clause dropped the busy
flag. -/
def mintedReadyState : LiveState := connectFinally 5 mintedState

/-- The state after a subsequent `disconnect`, whose first action is
`currentSessionIdRef.current = 0`. -/
def invalidatedState : LiveState := disconnect mintedReadyState

/-- Counterexample to C5: `disconnect` invalidates the token by setting it
to the constant 0, which is strictly smaller — not strictly greater — than
the previously minted token 5; the mint itself is `Date.now()`, a raw
wall-clock reading with no monotonicity enforcement. -/
theorem token_monotone_counterexample :
    mintedState.currentSessionId = 5 ∧
    invalidatedState.currentSessionId = 0 ∧
    ¬ mintedState.currentSessionId < invalidatedState.currentSessionId := by
  refine ⟨by decide, by decide, by decide⟩

/-- C5 (amended): each connect attempt mints the current wall-clock
reading as the token, so tokens of consecutive mints are strictly
increasing exactly when the clock readings are; `disconnect` does not mint
a larger token — it invalidates the session by setting the active token to
the reserved idle value 0. -/
theorem token_mint_amended (st : LiveState) (clock₁ clock₂ : ℕ)
    (hb : st.isBusy = false) (hc : clock₁ < clock₂) :
    (connectMint clock₁ true st).currentSessionId = clock₁ ∧
    (connectMint clock₂ true
        (connectFinally clock₁
          (connectMint clock₁ true st))).currentSessionId = clock₂ ∧
    (connectMint clock₁ true st).currentSessionId <
      (connectMint clock₂ true
        (connectFinally clock₁
          (connectMint clock₁ true st))).currentSessionId ∧
    (∀ s : LiveState, s.isBusy = false →
      (disconnect s).currentSessionId = 0) := by
  refine ⟨?_, ?_, ?_, ?_⟩
  · simp [connectMint, hb]
  · simp [connectMint, connectFinally, hb]
  · simp [connectMint, connectFinally, hb, hc]
  · intro s hs
    simp [disconnect, cleanupAudioAndSession, hs]

/-- Witness for the amended C5 at concrete clock readings 5 and 9. -/
theorem token_mint_amended_witness :
    initState.isBusy = false ∧ (5 : ℕ) < 9 ∧
    (connectMint 5 true initState).currentSessionId = 5 :=
  ⟨by decide, by decide,
    (token_mint_amended initState 5 9 (by decide) (by decide)).1⟩


/-- Without the transport's interruption signal, `onmessage` never moves
the scheduler cursor. -/
theorem onmessage_cursor_not_interrupted (sid now : ℕ) (msg : ServerMessage)
    (st : LiveState) (hi : msg.interrupted = false) :
    (onmessage sid now msg st).nextStartTime = st.nextStartTime := by
  unfold onmessage
  dsimp only
  split_ifs <;> first
    | rfl
    | exact handleTranscription_cursor now msg st
    | simp_all

/-- Under a matching token, the interruption signal resets the scheduler
cursor to exactly zero. -/
theorem onmessage_cursor_interrupted (sid now : ℕ) (msg : ServerMessage)
    (st : LiveState) (h : st.currentSessionId = sid)
    (hi : msg.interrupted = true) :
    (onmessage sid now msg st).nextStartTime = 0 := by
  unfold onmessage
  dsimp only
  split_ifs <;> simp_all

/-- C6: across every event of the session core the SchedulerCursor
(`nextStartTime`) never decreases except under the transport's explicit
interruption signal, which sets it to exactly zero; each enqueue
(the decode resumption of `playAudioChunk`) advances it to
`max(currentDeviceTime, cursor) + duration`, and decoded chunk durations
are never negative. -/
theorem scheduler_cursor_spec :
    (∀ ev st, st.nextStartTime ≤ (step ev st).nextStartTime ∨
      (interruptSignal ev = true ∧ (step ev st).nextStartTime = 0)) ∧
    (∀ srcId currentTime chunkLen st,
      (playAudioChunkResume srcId currentTime chunkLen st).nextStartTime =
        max currentTime st.nextStartTime + durationOfChunk chunkLen) ∧
    (∀ chunkLen, 0 ≤ durationOfChunk chunkLen) := by
  refine ⟨?_, fun _ _ _ _ => rfl, durationOfChunk_nonneg⟩
  intro ev st
  cases ev with
  | evOnopen sid =>
    left
    show st.nextStartTime ≤ (onopen sid st).nextStartTime
    unfold onopen; split_ifs <;> exact le_rfl
  | evOnmessage sid now msg =>
    by_cases h : st.currentSessionId = sid
    · cases hi : msg.interrupted with
      | true =>
        right
        exact ⟨hi, onmessage_cursor_interrupted sid now msg st h hi⟩
      | false =>
        left
        show st.nextStartTime ≤ (onmessage sid now msg st).nextStartTime
        rw [onmessage_cursor_not_interrupted sid now msg st hi]
    · left
      show st.nextStartTime ≤ (onmessage sid now msg st).nextStartTime
      unfold onmessage
      rw [if_pos h]
  | evOnclose sid =>
    left
    show st.nextStartTime ≤ (onclose sid st).nextStartTime
    unfold onclose; split_ifs <;> exact le_rfl
  | evOnerror sid e =>
    left
    show st.nextStartTime ≤ (onerror sid e st).nextStartTime
    unfold onerror; dsimp only; split_ifs <;> exact le_rfl
  | evAudioTick sid online input =>
    left
    show st.nextStartTime ≤ (onaudioprocess sid online input st).1.nextStartTime
    unfold onaudioprocess; dsimp only; split_ifs <;> exact le_rfl
  | evSendResume sid dat =>
    left
    show st.nextStartTime ≤ (sendRealtime sid dat st).1.nextStartTime
    unfold sendRealtime; split_ifs <;> exact le_rfl
  | evMediaResume sid =>
    left
    show st.nextStartTime ≤ (mediaResume sid st).nextStartTime
    unfold mediaResume; split_ifs <;> exact le_rfl
  | evSessionResume sid =>
    left
    show st.nextStartTime ≤ (sessionResume sid st).nextStartTime
    unfold sessionResume; split_ifs <;> exact le_rfl
  | evDecodeResume srcId currentTime chunkLen =>
    left
    show st.nextStartTime ≤
      (playAudioChunkResume srcId currentTime chunkLen st).nextStartTime
    calc st.nextStartTime ≤ max currentTime st.nextStartTime :=
          le_max_right _ _
      _ ≤ max currentTime st.nextStartTime + durationOfChunk chunkLen :=
          le_add_of_nonneg_right (durationOfChunk_nonneg chunkLen)
  | evSourceEnded srcId => left; exact le_rfl
  | evSpeakingTimeout => left; exact le_rfl
  | evConnectMint clock online =>
    left
    show st.nextStartTime ≤ (connectMint clock online st).nextStartTime
    unfold connectMint; split_ifs <;> exact le_rfl
  | evConnectFinally sid =>
    left
    show st.nextStartTime ≤ (connectFinally sid st).nextStartTime
    unfold connectFinally; split_ifs <;> exact le_rfl
  | evDisconnect =>
    left
    show st.nextStartTime ≤ (disconnect st).nextStartTime
    unfold disconnect cleanupAudioAndSession; dsimp only
    split_ifs <;> exact le_rfl
  | evCleanup => left; exact le_rfl

/-- A role-interleaved fragment run: a model fragment `"a"`, a user
fragment `"b"`, then another model fragment `"c"`, processed from the
initial state. -/
def interleavedRunFinal : LiveState :=
  handleTranscription 3 ⟨none, some "c", false, false, none⟩
    (handleTranscription 2 ⟨some "b", none, false, false, none⟩
      (handleTranscription 1 ⟨none, some "a", false, false, none⟩
        initState))

/-- Counterexample to C7: after the interleaved run model/user/model, the
message list holds two model-role messages with `isComplete = false` at
the same time — the middle user message cut the first model message off
from the accumulation target position, and the third fragment appended a
fresh incomplete model message. -/
theorem interleaved_run_counterexample :
    (interleavedRunFinal.messages.filter
        fun m => m.role == Role.model && !m.isComplete).length = 2 := by
  decide

/-- C7 (amended): the accumulation target is solely the final element of
the message list — every update by `updateMessageState` leaves all
messages before the last one unchanged and never removes entries (it
rewrites the trailing message in place or appends at most one new entry);
when roles interleave, earlier incomplete messages are simply abandoned,
so more than one message of a role can simultaneously carry
`isComplete = false`. -/
theorem interleaved_run_amended (now : ℕ) (role : Role) (text : String)
    (isComplete : Bool) (prev : List Message) :
    prev.length ≤ (updateMessageState now role text isComplete prev).length ∧
    (updateMessageState now role text isComplete prev).take (prev.length - 1)
      = prev.take (prev.length - 1) := by
  rcases prev.eq_nil_or_concat' with rfl | ⟨l, a, rfl⟩
  · unfold updateMessageState
    simp only [List.getLast?_nil]
    split_ifs <;> simp
  · unfold updateMessageState
    simp only [List.getLast?_concat]
    have hlen : (l ++ [a]).length - 1 = l.length := by
      simp [List.length_append]
    split_ifs with h1 h2
    · constructor
      · simp [List.dropLast_concat, List.length_append]
      · rw [hlen, List.dropLast_concat, List.take_left, List.take_left]
    · constructor
      · simp
      · rw [hlen, List.append_assoc, List.take_left, List.take_left]
    · exact ⟨le_rfl, rfl⟩

/-- The `TransientSuppressed` pattern table exactly as the claim lists it:
"network error", "closed", "aborted", "entity was not found",
"connection failed", "undefined" — without the source's extra
"networkerror" pattern. -/
def claimedSuppressedHit (lowerErr : String) : Bool :=
  strContains lowerErr "network error" ||
    strContains lowerErr "closed" ||
    strContains lowerErr "aborted" ||
    strContains lowerErr "entity was not found" ||
    strContains lowerErr "connection failed" ||
    strContains lowerErr "undefined"

/-- The source's suppression table is the claim's table plus the extra
pattern "networkerror". -/
theorem suppressedPatternHit_eq (lowerErr : String) :
    suppressedPatternHit lowerErr =
      (claimedSuppressedHit lowerErr ||
        strContains lowerErr "networkerror") := by
  simp only [suppressedPatternHit, claimedSuppressedHit, Bool.or_assoc,
    Bool.or_comm, Bool.or_left_comm]

/-- State with an open session under token 5 and no pending notice. -/
def errorCaseState : LiveState :=
  { initState with currentSessionId := 5, isConnected := true }

/-- Counterexample to C8: the error text "networkerror" contains none of
the claim's Busy or TransientSuppressed patterns, so the claim classifies
it Fatal and requires a user-visible generic notice; the source, whose
suppression table additionally contains the pattern "networkerror",
suppresses it instead and sets no notice at all. -/
theorem error_classifier_counterexample :
    busyPatternHit (strLower (extractErrMsg (.jsError "networkerror")))
      = false ∧
    claimedSuppressedHit (strLower (extractErrMsg (.jsError "networkerror")))
      = false ∧
    (onerror 5 (.jsError "networkerror") errorCaseState).error = none ∧
    (onerror 5 (.jsError "networkerror") errorCaseState).isConnected
      = false := by
  refine ⟨by decide, by decide, by decide, by decide⟩

/-- C8 (amended): for every error signal delivered under the current
token, the extracted text is classified Busy when it case-insensitively
contains "service is currently unavailable" or "503" (a retryable notice
is set); otherwise TransientSuppressed when it contains one of
"network error", "networkerror", "closed", "aborted",
"entity was not found", "connection failed" or "undefined" (the error
observable is left untouched); otherwise Fatal (the generic failure
notice is set). In all three classes the connected and speaking
observables are cleared and the active session handle is dropped. -/
theorem error_classifier_amended (sessionId : ℕ) (e : ErrSignal)
    (st : LiveState) (hmatch : st.currentSessionId = sessionId) :
    ((onerror sessionId e st).isConnected = false ∧
      (onerror sessionId e st).isSpeaking = false ∧
      (onerror sessionId e st).activeSession = false) ∧
    (busyPatternHit (strLower (extractErrMsg e)) = true →
      (onerror sessionId e st).error = some busyNotice) ∧
    (busyPatternHit (strLower (extractErrMsg e)) = false →
      (claimedSuppressedHit (strLower (extractErrMsg e)) ||
          strContains (strLower (extractErrMsg e)) "networkerror") = true →
      (onerror sessionId e st).error = st.error) ∧
    (busyPatternHit (strLower (extractErrMsg e)) = false →
      (claimedSuppressedHit (strLower (extractErrMsg e)) ||
          strContains (strLower (extractErrMsg e)) "networkerror") = false →
      (onerror sessionId e st).error = some fatalNotice) := by
  have hguard : ¬ st.currentSessionId ≠ sessionId := by simp [hmatch]
  refine ⟨?_, ?_, ?_, ?_⟩
  · unfold onerror
    rw [if_neg hguard]
    dsimp only
    split_ifs <;> exact ⟨rfl, rfl, rfl⟩
  · intro hb
    unfold onerror
    rw [if_neg hguard]
    dsimp only
    rw [if_pos hb]
  · intro hb hs
    unfold onerror
    rw [if_neg hguard]
    dsimp only
    rw [if_neg (by simp [hb]), if_pos (by rw [suppressedPatternHit_eq]; exact hs)]
  · intro hb hs
    unfold onerror
    rw [if_neg hguard]
    dsimp only
    rw [if_neg (by simp [hb]),
      if_neg (by simp [suppressedPatternHit_eq, hs])]

/-- Witness for the amended C8: a concrete 503 signal under the active
token yields the busy notice. -/
theorem error_classifier_amended_witness :
    errorCaseState.currentSessionId = 5 ∧
    busyPatternHit (strLower (extractErrMsg (.jsError "http 503"))) = true ∧
    (onerror 5 (.jsError "http 503") errorCaseState).error
      = some busyNotice :=
  ⟨by decide, by decide,
    (error_classifier_amended 5 (.jsError "http 503") errorCaseState
        rfl).2.1 (by decide)⟩

/-- C9: the volume value computed by the capture tick's meter lies in
[0, 1] for arbitrary sample magnitudes; an all-zero (silence) buffer
yields exactly 0, and a non-empty full-scale buffer (all samples of
magnitude 1) yields exactly 1. -/
theorem volume_in_unit_range (input : List ℝ) :
    (0 ≤ volumeLevel input ∧ volumeLevel input ≤ 1) ∧
    ((∀ x ∈ input, x = 0) → volumeLevel input = 0) ∧
    (input ≠ [] → (∀ x ∈ input, |x| = 1) → volumeLevel input = 1) := by
  refine ⟨⟨?_, ?_⟩, ?_, ?_⟩
  · exact le_min (mul_nonneg (Real.sqrt_nonneg _) (by norm_num)) zero_le_one
  · exact min_le_right _ _
  · intro h0
    have hsum : (input.map fun x => x * x).sum = 0 := by
      apply List.sum_eq_zero
      intro y hy
      obtain ⟨x, hx, rfl⟩ := List.mem_map.mp hy
      rw [h0 x hx, mul_zero]
    unfold volumeLevel
    rw [hsum]
    simp [Real.sqrt_zero]
  · intro hne habs
    have hmap : input.map (fun x => x * x) = List.replicate input.length 1 := by
      apply List.eq_replicate_iff.mpr
      refine ⟨by simp, ?_⟩
      intro b hb
      obtain ⟨x, hx, rfl⟩ := List.mem_map.mp hb
      rw [← abs_mul_abs_self x, habs x hx, mul_one]
    have hlen : (input.length : ℝ) ≠ 0 := by
      have := List.length_pos.mpr hne
      exact_mod_cast Nat.pos_iff_ne_zero.mp this
    unfold volumeLevel
    simp only [hmap, List.sum_replicate, nsmul_eq_mul, mul_one,
      div_self hlen, Real.sqrt_one, one_mul]
    exact min_eq_right (by norm_num)

/-- Witness for C9 at the concrete full-scale one-sample buffer. -/
theorem volume_in_unit_range_witness :
    volumeLevel [(1 : ℝ)] = 1 :=
  (volume_in_unit_range [(1 : ℝ)]).2.2 (by simp)
    (by intro x hx; rw [List.mem_singleton.mp hx]; exact abs_one)

/-- State carrying a transcript message finalized during an earlier
session, with token 5 active. -/
def staleTranscriptState : LiveState :=
  { initState with currentSessionId := 5,
                   messages := [⟨1, .user, "old", true⟩] }

/-- C10: whenever the `onopen` callback fires while its token is still the
active one, the session is marked connected and the entire transcript
message list is reset to empty, discarding all messages accumulated during
any previous session. -/
theorem session_open_resets_transcript (sessionId : ℕ) (st : LiveState)
    (hmatch : st.currentSessionId = sessionId) :
    (onopen sessionId st).isConnected = true ∧
    (onopen sessionId st).messages = [] := by
  unfold onopen
  rw [if_neg (by simp [hmatch])]
  exact ⟨rfl, rfl⟩

/-- Witness for C10: a concrete `onopen` under the active token 5, with a
message accumulated from an earlier session in the list, resets the list
to empty. -/
theorem session_open_resets_transcript_witness :
    staleTranscriptState.currentSessionId = 5 ∧
    staleTranscriptState.messages ≠ [] ∧
    (onopen 5 staleTranscriptState).messages = [] :=
  ⟨by decide, by decide,
    (session_open_resets_transcript 5 staleTranscriptState rfl).2⟩
